import Mathlib

/-!
Verification of `toolkit/output_analysis.py`: a shallow embedding of the
data model and operations of the script, with theorems checking the stated
properties. Real-valued quantities are modelled by `ℚ` (all arithmetic in
the script is field arithmetic on decimal constants), numpy arrays by
lists, and Python exceptions by `Except String`.
-/

namespace OutputAnalysis

/-- Reference momentum `P0C = 45.6e9` eV, FCC-ee Z operation mode. -/
def P0C : ℚ := 45.6e9

/-- Avogadro constant, the value of `scipy.constants.N_A`. -/
def N_A : ℚ := 6.02214076e23

/-- Molar mass of H in g/mol. -/
def MM_H : ℚ := 1.00784

/-- Molar mass of CO in g/mol. -/
def MM_CO : ℚ := 28.01

/-- Molar mass of CO2 in g/mol. -/
def MM_CO2 : ℚ := 44.01

/-- Density constant, g/cm^3 (the source sets all three gases to 8.96). -/
def RHO_SOLID_H : ℚ := 8.96

/-- Density constant for CO (equal to the H value in the source). -/
def RHO_SOLID_CO : ℚ := RHO_SOLID_H

/-- Density constant for CO2 (equal to the H value in the source). -/
def RHO_SOLID_CO2 : ℚ := RHO_SOLID_H

/-- Target thickness in cm. -/
def L_TARGET : ℚ := 0.1

/-- One trajectory record: the parallel `postPT` / `postPST` arrays kept by
`get_trajectories` (the `px`/`py` entries are never read by the analysed
code paths, so they are omitted). -/
structure Trajectory where
  postPT : List Int
  postPST : List Int
deriving Repr, DecidableEq

instance : Inhabited Trajectory := ⟨⟨[], []⟩⟩

/-- Function `get_CoulombScat_processes`: one boolean per trajectory, true when
`np.any((postPT == 2) & (postPST == 1))` holds — i.e. some index of the
elementwise-paired arrays carries the Coulomb-scattering code pair. -/
def get_CoulombScat_processes (trajectories : List Trajectory) : List Bool :=
  trajectories.map (fun t =>
    (t.postPT.zip t.postPST).any (fun q => q.1 == 2 && q.2 == 1))

/-- Numpy boolean-mask indexing `xs[mask]`: keep the entries of `xs` whose
mask entry is true, in order. -/
def maskSelect {α : Type} : List Bool → List α → List α
  | [], _ => []
  | _ :: _, [] => []
  | b :: ms, x :: xs => if b then x :: maskSelect ms xs else maskSelect ms xs

/-- The sampler-plane record: parallel per-primary arrays `weight`, `xp`,
`yp`, `p` of `pybdsim.Data.SamplerData(output_data, 1).data`. -/
structure SamplerData where
  weight : List ℚ
  xp : List ℚ
  yp : List ℚ
  p : List ℚ
deriving Repr, DecidableEq

/-- Function `get_angular_kicks`: select the masked `xp`/`yp` slopes (minus 0); in
`bdsim` format return them directly, in `xsuite` format rescale each by
`1 + delta` with `delta = p*1e9 / P0C - 1` elementwise, otherwise raise. -/
def get_angular_kicks (sampler : SamplerData) (mask : List Bool)
    (format : String) : Except String (List ℚ × List ℚ) :=
  let delta_xp := (maskSelect mask sampler.xp).map (fun v => v - 0)
  let delta_yp := (maskSelect mask sampler.yp).map (fun v => v - 0)
  if format = "bdsim" then
    Except.ok (delta_xp, delta_yp)
  else if format = "xsuite" then
    let delta := (maskSelect mask sampler.p).map (fun v => v * 1e9 / P0C - 1)
    let delta_px := List.zipWith (fun a d => a * (1 + d)) delta_xp delta
    let delta_py := List.zipWith (fun a d => a * (1 + d)) delta_yp delta
    Except.ok (delta_px, delta_py)
  else
    Except.error ("Format " ++ format ++ " not recognized.")

/-- Function `get_number_surface_density`: `L_TARGET * N_A * rho / MM` for the three
recognized gases, otherwise raise. -/
def get_number_surface_density (gas : String) : Except String ℚ :=
  if gas = "H" then
    Except.ok (L_TARGET * N_A * RHO_SOLID_H / MM_H)
  else if gas = "CO" then
    Except.ok (L_TARGET * N_A * RHO_SOLID_CO / MM_CO)
  else if gas = "CO2" then
    Except.ok (L_TARGET * N_A * RHO_SOLID_CO2 / MM_CO2)
  else
    Except.error ("Gas " ++ gas ++ " not recognized.")

/-- The cross-section computation of `main`:
`sum(weights[mask]) / (n_primaries * number_surface_density)`. -/
def cross_section_weighted (mask : List Bool) (weights : List ℚ)
    (nPrimaries : ℕ) (surfaceDensity : ℚ) : ℚ :=
  (maskSelect mask weights).sum / (nPrimaries * surfaceDensity)

/-- JSON values, enough structure for the serialized output of `main`. -/
inductive Json where
  | num : ℚ → Json
  | int : Int → Json
  | str : String → Json
  | arr : List Json → Json
  | obj : List (String × Json) → Json

/-- The file name written by `save_to_json`. -/
def save_to_json_filename (gas : String) : String :=
  "FCCee_z_CoulombScat_" ++ gas ++ ".json"

/-- The body of `main` after the external loads: build the Coulomb mask,
the angular kicks in `xsuite` format, the surface density, the weighted
cross section, and assemble the output dictionary together with the file
name that `save_to_json` writes it to. -/
def main_model (n_primaries : ℕ) (trajectories : List Trajectory)
    (sampler : SamplerData) (gas : String) :
    Except String (String × Json) :=
  let weights := sampler.weight
  let mask := get_CoulombScat_processes trajectories
  match get_angular_kicks sampler mask "xsuite" with
  | Except.error e => Except.error e
  | Except.ok (delta_px, delta_py) =>
    match get_number_surface_density gas with
    | Except.error e => Except.error e
    | Except.ok number_surface_density =>
      let cross_section_CoulombScat :=
        cross_section_weighted mask weights n_primaries number_surface_density
      Except.ok (save_to_json_filename gas,
        Json.obj [
          ("Primaries", Json.obj [
            ("n_primaries", Json.int n_primaries),
            ("Part_ID", Json.int (-11)),
            ("p0c", Json.num P0C)]),
          ("Cross section", Json.obj [
            ("CoulombScat", Json.num cross_section_CoulombScat)]),
          ("Angular kicks", Json.obj [
            ("n_CoulombScat", Json.int (maskSelect mask weights).length),
            ("delta_px", Json.arr (delta_px.map Json.num)),
            ("delta_py", Json.arr (delta_py.map Json.num))])])

/-- Whether an `Except` result is a success. -/
def isOkB {α : Type} : Except String α → Bool
  | Except.ok _ => true
  | Except.error _ => false

/-- Spec-side check: a JSON array whose entries are all numbers. -/
def isNumArr : Json → Bool
  | Json.arr xs => xs.all (fun x => match x with | Json.num _ => true | _ => false)
  | _ => false

/-- Spec-side check, following the words of the spec: the top-level structure is
`{"Primaries": {...}, "Cross section": {"CoulombScat": float},
"Angular kicks": {"n_CoulombScat": int, "delta_px": [float...],
"delta_py": [float...]}}`. -/
def isCoulombOutputShape : Json → Bool
  | Json.obj [("Primaries", Json.obj _),
      ("Cross section", Json.obj [("CoulombScat", Json.num _)]),
      ("Angular kicks", Json.obj [("n_CoulombScat", Json.int _),
        ("delta_px", dpx), ("delta_py", dpy)])] =>
    isNumArr dpx && isNumArr dpy
  | _ => false

/-! ### Helper lemmas -/

/-- Characterization of the per-trajectory Coulomb test: the zipped
any-scan over parallel arrays finds exactly the indices that carry the
code pair (2, 1). -/
lemma zip_any_coulomb (l1 l2 : List Int) :
    ((l1.zip l2).any (fun q => q.1 == 2 && q.2 == 1)) = true ↔
      ∃ k, k < l1.length ∧ k < l2.length ∧ l1.getD k 0 = 2 ∧ l2.getD k 0 = 1 := by
  induction l1 generalizing l2 with
  | nil => simp
  | cons a t1 ih =>
    cases l2 with
    | nil => simp
    | cons b t2 =>
      simp only [List.zip_cons_cons, List.any_cons, Bool.or_eq_true, ih]
      constructor
      · rintro (hab | ⟨k, hk1, hk2, hpt, hpst⟩)
        · refine ⟨0, by simp, by simp, ?_, ?_⟩
          · simpa using (Bool.and_elim_left hab)
          · simpa using (Bool.and_elim_right hab)
        · exact ⟨k + 1, by simpa using hk1, by simpa using hk2, by simpa using hpt,
            by simpa using hpst⟩
      · rintro ⟨k, hk1, hk2, hpt, hpst⟩
        cases k with
        | zero =>
          left
          simp only [List.getD_cons_zero] at hpt hpst
          simp [hpt, hpst]
        | succ k =>
          right
          exact ⟨k, by simpa using hk1, by simpa using hk2, by simpa using hpt,
            by simpa using hpst⟩

/-! ### C1 -/

/-- Claim C1: `get_CoulombScat_processes` returns one boolean per trajectory, and
the entry for trajectory `i` is true iff some index `k` of its parallel
`postPT`/`postPST` arrays satisfies `postPT[k] = 2` and `postPST[k] = 1`,
independently of where that step sits among the others. -/
theorem coulomb_mask_per_trajectory (ts : List Trajectory) :
    (get_CoulombScat_processes ts).length = ts.length ∧
    ∀ i, i < ts.length →
      ((get_CoulombScat_processes ts).getD i false = true ↔
        ∃ k, k < (ts.getD i default).postPT.length ∧
          k < (ts.getD i default).postPST.length ∧
          (ts.getD i default).postPT.getD k 0 = 2 ∧
          (ts.getD i default).postPST.getD k 0 = 1) := by
  refine ⟨by simp [get_CoulombScat_processes], ?_⟩
  intro i hi
  have hlen : i < (get_CoulombScat_processes ts).length := by
    simpa [get_CoulombScat_processes] using hi
  rw [List.getD_eq_getElem _ _ hlen]
  have hmap : (get_CoulombScat_processes ts)[i] =
      ((ts.getD i default).postPT.zip (ts.getD i default).postPST).any
        (fun q => q.1 == 2 && q.2 == 1) := by
    rw [show ts.getD i default = ts[i] from List.getD_eq_getElem _ _ hi]
    simp [get_CoulombScat_processes]
  rw [hmap, zip_any_coulomb]

/-- A concrete trajectory list: the first primary has a Coulomb step in
second position, the second has none. -/
def trajExample : List Trajectory := [⟨[1, 2], [0, 1]⟩, ⟨[2], [2]⟩]

/-- Witness for claim C1: the characterization applied to `trajExample` at index 0. -/
theorem coulomb_mask_per_trajectory_witness :
    (get_CoulombScat_processes trajExample).length = trajExample.length ∧
    ((get_CoulombScat_processes trajExample).getD 0 false = true ↔
      ∃ k, k < (trajExample.getD 0 default).postPT.length ∧
        k < (trajExample.getD 0 default).postPST.length ∧
        (trajExample.getD 0 default).postPT.getD k 0 = 2 ∧
        (trajExample.getD 0 default).postPST.getD k 0 = 1) :=
  ⟨(coulomb_mask_per_trajectory trajExample).1,
    (coulomb_mask_per_trajectory trajExample).2 0 (by decide)⟩

/-! ### C2 -/

/-- Summing a boolean-mask selection equals the index-wise sum of the
entries at true positions, when the mask and the array are parallel. -/
lemma maskSelect_sum (mask : List Bool) (weights : List ℚ)
    (hlen : mask.length = weights.length) :
    (maskSelect mask weights).sum =
      ((List.range mask.length).map
        (fun i => if mask.getD i false then weights.getD i 0 else 0)).sum := by
  induction mask generalizing weights with
  | nil => simp [maskSelect]
  | cons b ms ih =>
    cases weights with
    | nil => simp at hlen
    | cons w ws =>
      have hlen' : ms.length = ws.length := by simpa using hlen
      cases b <;>
        simp [maskSelect, List.length_cons, List.range_succ_eq_map, List.map_map,
          Function.comp_def, List.getD_cons_succ, List.getD_cons_zero, ih ws hlen']

/-- Claim C2: the weighted cross-section estimate is the sum of the weights at
the true positions of the selection mask, divided by the number of
primaries times the surface density. -/
theorem cross_section_weighted_spec (mask : List Bool) (weights : List ℚ)
    (n : ℕ) (sd : ℚ) (hlen : mask.length = weights.length)
    (hn : 0 < n) (hsd : 0 < sd) :
    cross_section_weighted mask weights n sd =
      ((List.range mask.length).map
        (fun i => if mask.getD i false then weights.getD i 0 else 0)).sum
        / (n * sd) := by
  rw [cross_section_weighted, maskSelect_sum mask weights hlen]

/-- Witness for claim C2: 10 primaries, the first 2 selected with weight 1 each and
surface density 5.353e23; the index-wise formula applies and the value is
`2 / (10 * 5.353e23)`. -/
theorem cross_section_weighted_spec_witness :
    cross_section_weighted
        [true, true, false, false, false, false, false, false, false, false]
        [1, 1, 1, 1, 1, 1, 1, 1, 1, (1 : ℚ)] 10 5.353e23 =
      ((List.range
          ([true, true, false, false, false, false, false, false, false,
            false] : List Bool).length).map
        (fun i =>
          if ([true, true, false, false, false, false, false, false, false,
              false] : List Bool).getD i false then
            ([1, 1, 1, 1, 1, 1, 1, 1, 1, (1 : ℚ)] : List ℚ).getD i 0
          else 0)).sum / ((10 : ℕ) * (5.353e23 : ℚ)) ∧
    cross_section_weighted
        [true, true, false, false, false, false, false, false, false, false]
        [1, 1, 1, 1, 1, 1, 1, 1, 1, (1 : ℚ)] 10 5.353e23 =
      2 / (10 * (5.353e23 : ℚ)) := by
  refine ⟨cross_section_weighted_spec _ _ _ _ (by decide) (by decide) (by norm_num), ?_⟩
  norm_num [cross_section_weighted, maskSelect]

/-! ### C3 -/

/-- Claim C3: for each recognized gas the surface density is
`L_TARGET * N_A * rho / MM`, and for H this equals the literal value
`0.1 * 6.02214076e23 * 8.96 / 1.00784`. -/
theorem surface_density_formula :
    get_number_surface_density "H" =
      Except.ok (L_TARGET * N_A * RHO_SOLID_H / MM_H) ∧
    get_number_surface_density "CO" =
      Except.ok (L_TARGET * N_A * RHO_SOLID_CO / MM_CO) ∧
    get_number_surface_density "CO2" =
      Except.ok (L_TARGET * N_A * RHO_SOLID_CO2 / MM_CO2) ∧
    get_number_surface_density "H" =
      Except.ok ((0.1 : ℚ) * 6.02214076e23 * 8.96 / 1.00784) := by
  refine ⟨rfl, rfl, rfl, ?_⟩
  norm_num [get_number_surface_density, L_TARGET, N_A, RHO_SOLID_H, MM_H]

/-! ### C6 -/

/-- Claim C6: the surface-density computation succeeds exactly on the three
recognized gas identifiers, and fails (returns an error) on every other
string. -/
theorem surface_density_ok_iff (gas : String) :
    isOkB (get_number_surface_density gas) =
      (gas == "H" || gas == "CO" || gas == "CO2") := by
  by_cases h1 : gas = "H"
  · subst h1; rfl
  · by_cases h2 : gas = "CO"
    · subst h2; rfl
    · by_cases h3 : gas = "CO2"
      · subst h3; rfl
      · simp [get_number_surface_density, isOkB, h1, h2, h3]

/-! ### C7 -/

/-- Claim C7: `get_angular_kicks` succeeds exactly on the two recognized
coordinate formats (`bdsim`, named `raw` in the spec, and `xsuite`, its
`boosted`); any other format string yields an error. -/
theorem angular_kicks_ok_iff (s : SamplerData) (m : List Bool)
    (format : String) :
    isOkB (get_angular_kicks s m format) =
      (format == "bdsim" || format == "xsuite") := by
  by_cases h1 : format = "bdsim"
  · subst h1; rfl
  · by_cases h2 : format = "xsuite"
    · subst h2; rfl
    · simp [get_angular_kicks, isOkB, h1, h2]

/-! ### C8 -/

/-- Claim C8: in the raw (`bdsim`) coordinate system the kicks are exactly the
selected `xp` and `yp` slopes, unchanged. -/
theorem angular_kicks_bdsim_raw (s : SamplerData) (m : List Bool) :
    get_angular_kicks s m "bdsim" =
      Except.ok (maskSelect m s.xp, maskSelect m s.yp) := by
  simp [get_angular_kicks, sub_zero]

/-! ### C4 -/

/-- Claim C4: in the boosted (`xsuite`) coordinate system the kicks are the
selected slopes rescaled elementwise by `1 + delta` with
`delta = p * 1e9 / P0C - 1` over the selected momenta. -/
theorem angular_kicks_xsuite_formula (s : SamplerData) (m : List Bool) :
    get_angular_kicks s m "xsuite" =
      Except.ok
        (List.zipWith (fun xpv d => xpv * (1 + d)) (maskSelect m s.xp)
          ((maskSelect m s.p).map (fun pv => pv * 1e9 / P0C - 1)),
         List.zipWith (fun ypv d => ypv * (1 + d)) (maskSelect m s.yp)
          ((maskSelect m s.p).map (fun pv => pv * 1e9 / P0C - 1))) := by
  simp [get_angular_kicks, sub_zero]

/-! ### C9 -/

/-- Boolean-mask selection keeps the same number of entries from any two
parallel arrays. -/
lemma maskSelect_length_congr {α β : Type} (m : List Bool) (xs : List α)
    (ys : List β) (h : xs.length = ys.length) :
    (maskSelect m xs).length = (maskSelect m ys).length := by
  induction m generalizing xs ys with
  | nil => simp [maskSelect]
  | cons b ms ih =>
    cases xs with
    | nil =>
      cases ys with
      | nil => simp [maskSelect]
      | cons y ys => simp at h
    | cons x xs =>
      cases ys with
      | nil => simp at h
      | cons y ys =>
        have h' : xs.length = ys.length := by simpa using h
        cases b <;> simp [maskSelect, ih xs ys h']

/-- Rescaling by `1 + d` with every `d` equal to zero is the identity, for
parallel lists. -/
lemma zipWith_mul_one_add_zero (xs ds : List ℚ) (hlen : ds.length = xs.length)
    (hz : ∀ d ∈ ds, d = 0) :
    List.zipWith (fun a d => a * (1 + d)) xs ds = xs := by
  induction xs generalizing ds with
  | nil => simp
  | cons x xs ih =>
    cases ds with
    | nil => simp at hlen
    | cons d ds =>
      have hd : d = 0 := hz d (by simp)
      have hlen' : ds.length = xs.length := by simpa using hlen
      have hz' : ∀ e ∈ ds, e = 0 := fun e he => hz e (by simp [he])
      simp [hd, ih ds hlen' hz']

/-- Claim C9: when every selected momentum satisfies `p * 1e9 = P0C` (so
`delta = 0`), the boosted (`xsuite`) kicks coincide with the raw (`bdsim`)
ones, given parallel sampler arrays. -/
theorem angular_kicks_boosted_eq_raw (s : SamplerData) (m : List Bool)
    (hxp : s.xp.length = s.p.length) (hyp2 : s.yp.length = s.p.length)
    (hsel : ∀ v ∈ maskSelect m s.p, v * 1e9 = P0C) :
    get_angular_kicks s m "xsuite" = get_angular_kicks s m "bdsim" := by
  have hdz : ∀ d ∈ (maskSelect m s.p).map (fun v => v * 1e9 / P0C - 1),
      d = 0 := by
    intro d hd
    rcases List.mem_map.mp hd with ⟨v, hv, rfl⟩
    rw [hsel v hv]
    norm_num [P0C]
  have hlx : ((maskSelect m s.p).map (fun v => v * 1e9 / P0C - 1)).length =
      ((maskSelect m s.xp).map (fun v => v - 0)).length := by
    simp [maskSelect_length_congr m s.p s.xp hxp.symm]
  have hly : ((maskSelect m s.p).map (fun v => v * 1e9 / P0C - 1)).length =
      ((maskSelect m s.yp).map (fun v => v - 0)).length := by
    simp [maskSelect_length_congr m s.p s.yp hyp2.symm]
  simp only [get_angular_kicks, if_true]
  rw [zipWith_mul_one_add_zero _ _ hlx hdz, zipWith_mul_one_add_zero _ _ hly hdz,
    ite_self]

/-- Witness for claim C9: a one-primary sampler whose momentum `45.6` satisfies
`45.6 * 1e9 = P0C`, so the boosted and raw kick computations agree. -/
theorem angular_kicks_boosted_eq_raw_witness :
    get_angular_kicks (SamplerData.mk [1] [0.5] [0.25] [45.6]) [true]
        "xsuite" =
      get_angular_kicks (SamplerData.mk [1] [0.5] [0.25] [45.6]) [true]
        "bdsim" := by
  refine angular_kicks_boosted_eq_raw _ _ rfl rfl ?_
  intro v hv
  simp [maskSelect] at hv
  subst hv
  norm_num [P0C]

/-! ### Shared facts about `main_model` -/

/-- The Coulomb mask has one entry per trajectory. -/
lemma get_CoulombScat_length (ts : List Trajectory) :
    (get_CoulombScat_processes ts).length = ts.length := by
  simp [get_CoulombScat_processes]

/-- Boolean-mask selection from a parallel array keeps as many entries as
the mask has `true`s. -/
lemma maskSelect_length_count {α : Type} (m : List Bool) (xs : List α)
    (h : m.length = xs.length) :
    (maskSelect m xs).length = m.count true := by
  induction m generalizing xs with
  | nil => simp [maskSelect]
  | cons b ms ih =>
    cases xs with
    | nil => simp at h
    | cons x xs =>
      have h' : ms.length = xs.length := by simpa using h
      cases b <;> simp [maskSelect, ih xs h', List.count_cons]

/-- The `xsuite` branch of `get_angular_kicks`, written out. -/
lemma get_angular_kicks_xsuite (s : SamplerData) (m : List Bool) :
    get_angular_kicks s m "xsuite" =
      Except.ok
        (List.zipWith (fun a d => a * (1 + d))
          ((maskSelect m s.xp).map (fun v => v - 0))
          ((maskSelect m s.p).map (fun v => v * 1e9 / P0C - 1)),
         List.zipWith (fun a d => a * (1 + d))
          ((maskSelect m s.yp).map (fun v => v - 0))
          ((maskSelect m s.p).map (fun v => v * 1e9 / P0C - 1))) := rfl

/-- Inversion for a successful run of `main_model`: the surface density
lookup succeeded and the output is the assembled file name and JSON. -/
lemma main_model_ok (n : ℕ) (ts : List Trajectory) (s : SamplerData)
    (gas : String) (out : String × Json)
    (h : main_model n ts s gas = Except.ok out) :
    ∃ nsd, get_number_surface_density gas = Except.ok nsd ∧
    ∃ dpx dpy,
      get_angular_kicks s (get_CoulombScat_processes ts) "xsuite" =
        Except.ok (dpx, dpy) ∧
      out = (save_to_json_filename gas,
        Json.obj [
          ("Primaries", Json.obj [
            ("n_primaries", Json.int n),
            ("Part_ID", Json.int (-11)),
            ("p0c", Json.num P0C)]),
          ("Cross section", Json.obj [
            ("CoulombScat", Json.num (cross_section_weighted
              (get_CoulombScat_processes ts) s.weight n nsd))]),
          ("Angular kicks", Json.obj [
            ("n_CoulombScat", Json.int
              (maskSelect (get_CoulombScat_processes ts) s.weight).length),
            ("delta_px", Json.arr (dpx.map Json.num)),
            ("delta_py", Json.arr (dpy.map Json.num))])]) := by
  rw [main_model, get_angular_kicks_xsuite] at h
  cases hd : get_number_surface_density gas with
  | error e =>
    rw [hd] at h
    exact Except.noConfusion h
  | ok nsd =>
    rw [hd] at h
    injection h with h'
    exact ⟨nsd, rfl, _, _, rfl, h'.symm⟩

/-! ### C5 -/

/-- Counterexample to claim C5: for the gas `H` the file written by `save_to_json`
is `FCCee_z_CoulombScat_H.json`, not `FCCee_z_H.json` as the claim
states. -/
theorem coulomb_output_filename_cex :
    save_to_json_filename "H" ≠ "FCCee_z_" ++ "H" ++ ".json" := by decide

/-- Amended claim C5: every successful run of the Coulomb variant writes
`FCCee_z_CoulombScat_{gas}.json`, and the serialized value has the
top-level structure `{"Primaries": {...}, "Cross section":
{"CoulombScat": float}, "Angular kicks": {"n_CoulombScat": int,
"delta_px": [float...], "delta_py": [float...]}}`. -/
theorem coulomb_output_filename_shape (n : ℕ) (ts : List Trajectory)
    (s : SamplerData) (gas : String) (out : String × Json)
    (h : main_model n ts s gas = Except.ok out) :
    out.1 = "FCCee_z_CoulombScat_" ++ gas ++ ".json" ∧
    isCoulombOutputShape out.2 = true := by
  obtain ⟨nsd, hd, dpx, dpy, hk, rfl⟩ := main_model_ok n ts s gas out h
  refine ⟨rfl, ?_⟩
  simp [isCoulombOutputShape, isNumArr]

/-- Concrete JSON output of a run with ten primaries, no trajectories and
an empty sampler plane, for the gas `H`. -/
def jsonExample : Json :=
  Json.obj [
    ("Primaries", Json.obj [
      ("n_primaries", Json.int 10),
      ("Part_ID", Json.int (-11)),
      ("p0c", Json.num P0C)]),
    ("Cross section", Json.obj [
      ("CoulombScat", Json.num (cross_section_weighted [] [] 10
        (L_TARGET * N_A * RHO_SOLID_H / MM_H)))]),
    ("Angular kicks", Json.obj [
      ("n_CoulombScat", Json.int 0),
      ("delta_px", Json.arr []),
      ("delta_py", Json.arr [])])]

/-- Witness for the amended claim C5: the amended statement applied to a concrete successful
run. -/
theorem coulomb_output_filename_shape_witness :
    (("FCCee_z_CoulombScat_H.json", jsonExample) : String × Json).1 =
      "FCCee_z_CoulombScat_" ++ "H" ++ ".json" ∧
    isCoulombOutputShape
      (("FCCee_z_CoulombScat_H.json", jsonExample) : String × Json).2 =
      true :=
  coulomb_output_filename_shape 10 [] (SamplerData.mk [] [] [] []) "H"
    ("FCCee_z_CoulombScat_H.json", jsonExample) rfl

/-! ### C10 -/

/-- Claim C10: in every successful run, the serialized `n_CoulombScat` equals the
number of trajectories flagged true by the Coulomb mask, which also equals
the lengths of the serialized `delta_px` and `delta_py` arrays; and the
weighted cross-section numerator can differ from that count when a
selected weight is not 1. -/
theorem n_coulomb_count_invariant :
    (∀ (n : ℕ) (ts : List Trajectory) (s : SamplerData) (gas : String)
        (out : String × Json),
      s.weight.length = ts.length → s.xp.length = ts.length →
      s.yp.length = ts.length → s.p.length = ts.length →
      main_model n ts s gas = Except.ok out →
      ∃ prim cs dpx dpy,
        out.2 = Json.obj [
          ("Primaries", prim),
          ("Cross section", cs),
          ("Angular kicks", Json.obj [
            ("n_CoulombScat",
              Json.int ((get_CoulombScat_processes ts).count true)),
            ("delta_px", Json.arr dpx),
            ("delta_py", Json.arr dpy)])] ∧
        dpx.length = (get_CoulombScat_processes ts).count true ∧
        dpy.length = (get_CoulombScat_processes ts).count true) ∧
    (maskSelect [true] [(2 : ℚ)]).sum ≠
      (((maskSelect [true] [(2 : ℚ)]).length : ℕ) : ℚ) := by
  constructor
  · intro n ts s gas out hw hxp hyp2 hp h
    obtain ⟨nsd, hd, dpx, dpy, hk, rfl⟩ := main_model_ok n ts s gas out h
    have hmask : (get_CoulombScat_processes ts).length = ts.length :=
      get_CoulombScat_length ts
    have hcount : (maskSelect (get_CoulombScat_processes ts) s.weight).length
        = (get_CoulombScat_processes ts).count true :=
      maskSelect_length_count _ _ (by rw [hmask, hw])
    rw [get_angular_kicks_xsuite] at hk
    injection hk with hk'
    have hdx : dpx = List.zipWith (fun a d => a * (1 + d))
        ((maskSelect (get_CoulombScat_processes ts) s.xp).map (fun v => v - 0))
        ((maskSelect (get_CoulombScat_processes ts) s.p).map
          (fun v => v * 1e9 / P0C - 1)) := congrArg Prod.fst hk'.symm
    have hdy : dpy = List.zipWith (fun a d => a * (1 + d))
        ((maskSelect (get_CoulombScat_processes ts) s.yp).map (fun v => v - 0))
        ((maskSelect (get_CoulombScat_processes ts) s.p).map
          (fun v => v * 1e9 / P0C - 1)) := congrArg Prod.snd hk'.symm
    refine ⟨_, _, dpx.map Json.num, dpy.map Json.num, by rw [hcount], ?_, ?_⟩
    · rw [List.length_map, hdx, List.length_zipWith, List.length_map,
        List.length_map,
        maskSelect_length_count _ _ (by rw [hmask, hxp]),
        maskSelect_length_count _ _ (by rw [hmask, hp]), min_self]
    · rw [List.length_map, hdy, List.length_zipWith, List.length_map,
        List.length_map,
        maskSelect_length_count _ _ (by rw [hmask, hyp2]),
        maskSelect_length_count _ _ (by rw [hmask, hp]), min_self]
  · norm_num [maskSelect]

/-- Witness for claim C10: the invariant applied to a concrete one-trajectory run
with unit weight, for the gas `H`. -/
theorem n_coulomb_count_invariant_witness :
    ∃ prim cs dpx dpy,
      (main_model 1 [Trajectory.mk [2] [1]]
          (SamplerData.mk [1] [0.5] [0.25] [45.6]) "H").toOption.map
          Prod.snd = some (Json.obj [
        ("Primaries", prim),
        ("Cross section", cs),
        ("Angular kicks", Json.obj [
          ("n_CoulombScat",
            Json.int ((get_CoulombScat_processes
              [Trajectory.mk [2] [1]]).count true)),
          ("delta_px", Json.arr dpx),
          ("delta_py", Json.arr dpy)])]) ∧
      dpx.length = (get_CoulombScat_processes
        [Trajectory.mk [2] [1]]).count true ∧
      dpy.length = (get_CoulombScat_processes
        [Trajectory.mk [2] [1]]).count true := by
  obtain ⟨prim, cs, dpx, dpy, hout, hx, hy⟩ :=
    (n_coulomb_count_invariant).1 1 [Trajectory.mk [2] [1]]
      (SamplerData.mk [1] [0.5] [0.25] [45.6]) "H" _ rfl rfl rfl rfl rfl
  exact ⟨prim, cs, dpx, dpy, by rw [← hout]; rfl, hx, hy⟩

end OutputAnalysis
